import Mathlib

/-!
Verification of the DMA channel controller (src/dma.rs) of an STM32 HAL.

The hardware register file is modelled as a software register double, as the
repository itself prescribes for CI testing: a register holds the value last
written to it, and every read returns that value.  Each operation is embedded
as a pure function from the register-file state to a new state together with a
trace of the register accesses it performs, so that write-ordering properties
can be stated over the trace.  The register topology modelled is the flat
non-g0 one (registers cpar1..cpar8 and so on), with channel 8 present as on
the l5/g4 members of the family; the per-channel match arms below mirror the
per-channel match arms of the source one for one.

Polling loops of the source (reading a control register until a bit has the
desired value) terminate after a single read in this register double, since
the preceding write already gave the bit its desired value; each such loop is
recorded in the trace as a single poll observation event.
-/

/-- Software priority of a channel, CCR PL field (dma.rs, Priority). -/
inductive Priority where
  | Low
  | Medium
  | High
  | VeryHigh
deriving DecidableEq

/-- The numeric value of a priority, as in the repr(u8) discriminants. -/
def Priority.val : Priority → Nat
  | .Low => 0
  | .Medium => 1
  | .High => 2
  | .VeryHigh => 3

/-- A DMA channel identifier (dma.rs, DmaChannel); C8 exists on l5/g4. -/
inductive DmaChannel where
  | C1
  | C2
  | C3
  | C4
  | C5
  | C6
  | C7
  | C8
deriving DecidableEq, BEq

/-- Transfer direction, CCR DIR bit (dma.rs, Direction). -/
inductive Direction where
  | ReadFromPeriph
  | ReadFromMem
deriving DecidableEq

/-- Numeric value of a direction, as in the repr(u8) discriminants. -/
def Direction.val : Direction → Nat
  | .ReadFromPeriph => 0
  | .ReadFromMem => 1

/-- Circular mode, CCR CIRC bit (dma.rs, Circular). -/
inductive Circular where
  | Disabled
  | Enabled
deriving DecidableEq

/-- Numeric value of the circular mode discriminant. -/
def Circular.val : Circular → Nat
  | .Disabled => 0
  | .Enabled => 1

/-- Increment mode for the peripheral or memory address (dma.rs, IncrMode). -/
inductive IncrMode where
  | Disabled
  | Enabled
deriving DecidableEq

/-- Numeric value of the increment mode discriminant. -/
def IncrMode.val : IncrMode → Nat
  | .Disabled => 0
  | .Enabled => 1

/-- Element size, CCR PSIZE and MSIZE fields (dma.rs, DataSize). -/
inductive DataSize where
  | S8
  | S16
  | S32
deriving DecidableEq

/-- Numeric value of the element size discriminant. -/
def DataSize.val : DataSize → Nat
  | .S8 => 0
  | .S16 => 1
  | .S32 => 2

/-- Interrupt kind, CCR TEIE, HTIE and TCIE bits (dma.rs, DmaInterrupt). -/
inductive DmaInterrupt where
  | TransferError
  | HalfTransfer
  | TransferComplete
deriving DecidableEq

/-- A DMA request input source (dma.rs, DmaInput). -/
inductive DmaInput where
  | Adc1
  | Dac1Ch1
  | Dac1Ch2
  | Tim6Up
  | Tim7Up
  | Spi1Rx
  | Spi1Tx
  | Spi2Rx
  | Spi2Tx
  | Spi3Rx
  | Spi3Tx
  | I2c1Rx
  | I2c1Tx
  | I2c2Rx
  | I2c2Tx
  | I2c3Rx
  | I2c3Tx
  | I2c4Rx
  | I2c4Tx
  | Usart1Rx
  | Usart1Tx
  | Usart2Rx
  | Usart2Tx
  | Usart3Rx
  | Usart3Tx
  | Uart4Rx
  | Uart4Tx
  | Uart5Rx
  | Uart5Tx
  | Lpuart1Rx
  | Lpuart1Tx
  | Adc2
  | Adc3
  | Adc4
  | Adc5
deriving DecidableEq

/-- The repr(u8) discriminant of a DmaInput: its DMAMUX register value. -/
def DmaInput.val : DmaInput → Nat
  | .Adc1 => 5
  | .Dac1Ch1 => 6
  | .Dac1Ch2 => 7
  | .Tim6Up => 8
  | .Tim7Up => 9
  | .Spi1Rx => 10
  | .Spi1Tx => 11
  | .Spi2Rx => 12
  | .Spi2Tx => 13
  | .Spi3Rx => 14
  | .Spi3Tx => 15
  | .I2c1Rx => 16
  | .I2c1Tx => 17
  | .I2c2Rx => 18
  | .I2c2Tx => 19
  | .I2c3Rx => 20
  | .I2c3Tx => 21
  | .I2c4Rx => 22
  | .I2c4Tx => 23
  | .Usart1Rx => 24
  | .Usart1Tx => 25
  | .Usart2Rx => 26
  | .Usart2Tx => 27
  | .Usart3Rx => 28
  | .Usart3Tx => 29
  | .Uart4Rx => 30
  | .Uart4Tx => 31
  | .Uart5Rx => 32
  | .Uart5Tx => 33
  | .Lpuart1Rx => 34
  | .Lpuart1Tx => 35
  | .Adc2 => 36
  | .Adc3 => 37
  | .Adc4 => 38
  | .Adc5 => 39

/-- The hard-wired DMA1 channel of an input on f3/l4 (dma1_channel).
The source aborts with a runtime panic on the commented-out inputs; those
are modelled as none. -/
def dma1_channel : DmaInput → Option DmaChannel
  | .Adc1 => some .C1
  | .Spi1Rx => some .C2
  | .Spi1Tx => some .C3
  | .Spi2Rx => some .C4
  | .Spi2Tx => some .C5
  | .I2c1Rx => some .C7
  | .I2c1Tx => some .C6
  | .I2c2Rx => some .C5
  | .I2c2Tx => some .C4
  | .I2c3Rx => some .C3
  | .Usart1Rx => some .C5
  | .Usart1Tx => some .C4
  | .Usart2Rx => some .C6
  | .Usart2Tx => some .C7
  | .Usart3Rx => some .C3
  | .Usart3Tx => some .C2
  | .Adc2 => some .C2
  | _ => none

/-- The l4 CSELR channel-select code of an input (dma1_channel_select).
The source aborts with a runtime panic on the commented-out inputs; those
are modelled as none. -/
def dma1_channel_select : DmaInput → Option Nat
  | .Adc1 => some 0
  | .Spi1Rx => some 1
  | .Spi1Tx => some 1
  | .Spi2Rx => some 1
  | .Spi2Tx => some 1
  | .I2c1Rx => some 3
  | .I2c1Tx => some 3
  | .I2c2Rx => some 3
  | .I2c2Tx => some 3
  | .I2c3Rx => some 3
  | .Usart1Rx => some 2
  | .Usart1Tx => some 2
  | .Usart2Rx => some 2
  | .Usart2Tx => some 2
  | .Usart3Rx => some 2
  | .Usart3Tx => some 2
  | .Adc2 => some 0
  | _ => none

/-- One channel control register CCR, split into its fields. -/
structure Ccr where
  en : Bool
  tcie : Bool
  htie : Bool
  teie : Bool
  dir : Bool
  circ : Bool
  pinc : Bool
  minc : Bool
  psize : Nat
  msize : Nat
  pl : Nat
  mem2mem : Bool
deriving DecidableEq

/-- The shared status register ISR: one transfer-complete flag per channel. -/
structure Isr where
  tcif1 : Bool
  tcif2 : Bool
  tcif3 : Bool
  tcif4 : Bool
  tcif5 : Bool
  tcif6 : Bool
  tcif7 : Bool
  tcif8 : Bool
deriving DecidableEq

/-- The l4 channel-select register CSELR, one field per channel. -/
structure Cselr where
  c1s : Nat
  c2s : Nat
  c3s : Nat
  c4s : Nat
  c5s : Nat
  c6s : Nat
  c7s : Nat
deriving DecidableEq

/-- The DMA register block: flat per-channel registers as on the non-g0
members of the family, plus the shared status and channel-select registers. -/
structure RegisterBlock where
  cpar1 : Nat
  cpar2 : Nat
  cpar3 : Nat
  cpar4 : Nat
  cpar5 : Nat
  cpar6 : Nat
  cpar7 : Nat
  cpar8 : Nat
  cmar1 : Nat
  cmar2 : Nat
  cmar3 : Nat
  cmar4 : Nat
  cmar5 : Nat
  cmar6 : Nat
  cmar7 : Nat
  cmar8 : Nat
  cndtr1 : Nat
  cndtr2 : Nat
  cndtr3 : Nat
  cndtr4 : Nat
  cndtr5 : Nat
  cndtr6 : Nat
  cndtr7 : Nat
  cndtr8 : Nat
  ccr1 : Ccr
  ccr2 : Ccr
  ccr3 : Ccr
  ccr4 : Ccr
  ccr5 : Ccr
  ccr6 : Ccr
  ccr7 : Ccr
  ccr8 : Ccr
  isr : Isr
  cselr : Cselr
deriving DecidableEq

/-- The common channel configuration bundle (dma.rs, ChannelCfg). -/
structure ChannelCfg where
  priority : Priority
  circular : Circular
  periph_incr : IncrMode
  mem_incr : IncrMode
deriving DecidableEq

/-- The Default impl of ChannelCfg (dma.rs, impl Default for ChannelCfg). -/
def ChannelCfg.default : ChannelCfg :=
  { priority := Priority.Medium
    circular := Circular.Disabled
    periph_incr := IncrMode.Disabled
    mem_incr := IncrMode.Enabled }

/-- Names of the CCR fields a control-register write may set; a write event
records which fields its modify closure set. -/
inductive CcrField where
  | en
  | tcie
  | htie
  | teie
  | dir
  | circ
  | pinc
  | minc
  | psize
  | msize
  | pl
  | mem2mem
deriving DecidableEq, BEq

/-- One observable register access: a write to a specific register (CCR
writes carry the set of fields the modify closure set, plus the full value
written), a poll observation of the EN bit, or a compiler fence. -/
inductive Event where
  | writeCpar (ch : DmaChannel) (v : Nat)
  | writeCmar (ch : DmaChannel) (v : Nat)
  | writeCndtr (ch : DmaChannel) (v : Nat)
  | writeCcr (ch : DmaChannel) (fields : List CcrField) (v : Ccr)
  | writeCselr (ch : DmaChannel) (v : Nat)
  | writeMux (ch : DmaChannel) (v : Nat)
  | pollEnClear (ch : DmaChannel)
  | pollEnSet (ch : DmaChannel)
  | fenceRelease
  | fenceSeqCst
deriving DecidableEq

/-- The set_ccr macro of the source: clear EN and poll until it reads clear,
clear MEM2MEM when circular mode is requested, then one combined write of
priority, direction, circular, increment, size, TCIE and EN fields. -/
def set_ccr (ch : DmaChannel) (ccr : Ccr) (priority : Priority)
    (direction : Direction) (circular : Circular)
    (periph_incr mem_incr : IncrMode) (periph_size mem_size : DataSize) :
    Ccr × List Event :=
  let c1 : Ccr := { ccr with en := false }
  let e1 : List Event := [Event.writeCcr ch [CcrField.en] c1, Event.pollEnClear ch]
  let step2 : Ccr × List Event :=
    match circular with
    | Circular.Enabled =>
        ({ c1 with mem2mem := false },
         [Event.writeCcr ch [CcrField.mem2mem] { c1 with mem2mem := false }])
    | Circular.Disabled => (c1, [])
  let c2 := step2.fst
  let c3 : Ccr :=
    { c2 with
      pl := priority.val
      dir := direction.val != 0
      circ := circular.val != 0
      pinc := periph_incr.val != 0
      minc := mem_incr.val != 0
      psize := periph_size.val
      msize := mem_size.val
      tcie := true
      en := true }
  (c3,
   e1 ++ step2.snd ++
     [Event.writeCcr ch
       [CcrField.pl, CcrField.dir, CcrField.circ, CcrField.pinc, CcrField.minc,
        CcrField.psize, CcrField.msize, CcrField.tcie, CcrField.en] c3])

/-- Dma::cfg_channel: write the peripheral address, the memory address and
the element count registers of the channel, emit the release fence, then run
the set_ccr sequence on the channel control register. -/
def cfg_channel (s : RegisterBlock) (channel : DmaChannel)
    (periph_addr mem_addr num_data : Nat) (direction : Direction)
    (periph_size mem_size : DataSize) (cfg : ChannelCfg) :
    RegisterBlock × List Event :=
  let step1 : RegisterBlock × List Event :=
    match channel with
    | .C1 => ({ s with cpar1 := periph_addr }, [Event.writeCpar .C1 periph_addr])
    | .C2 => ({ s with cpar2 := periph_addr }, [Event.writeCpar .C2 periph_addr])
    | .C3 => ({ s with cpar3 := periph_addr }, [Event.writeCpar .C3 periph_addr])
    | .C4 => ({ s with cpar4 := periph_addr }, [Event.writeCpar .C4 periph_addr])
    | .C5 => ({ s with cpar5 := periph_addr }, [Event.writeCpar .C5 periph_addr])
    | .C6 => ({ s with cpar6 := periph_addr }, [Event.writeCpar .C6 periph_addr])
    | .C7 => ({ s with cpar7 := periph_addr }, [Event.writeCpar .C7 periph_addr])
    | .C8 => ({ s with cpar8 := periph_addr }, [Event.writeCpar .C8 periph_addr])
  let s1 := step1.fst
  let step2 : RegisterBlock × List Event :=
    match channel with
    | .C1 => ({ s1 with cmar1 := mem_addr }, [Event.writeCmar .C1 mem_addr])
    | .C2 => ({ s1 with cmar2 := mem_addr }, [Event.writeCmar .C2 mem_addr])
    | .C3 => ({ s1 with cmar3 := mem_addr }, [Event.writeCmar .C3 mem_addr])
    | .C4 => ({ s1 with cmar4 := mem_addr }, [Event.writeCmar .C4 mem_addr])
    | .C5 => ({ s1 with cmar5 := mem_addr }, [Event.writeCmar .C5 mem_addr])
    | .C6 => ({ s1 with cmar6 := mem_addr }, [Event.writeCmar .C6 mem_addr])
    | .C7 => ({ s1 with cmar7 := mem_addr }, [Event.writeCmar .C7 mem_addr])
    | .C8 => ({ s1 with cmar8 := mem_addr }, [Event.writeCmar .C8 mem_addr])
  let s2 := step2.fst
  let step3 : RegisterBlock × List Event :=
    match channel with
    | .C1 => ({ s2 with cndtr1 := num_data }, [Event.writeCndtr .C1 num_data])
    | .C2 => ({ s2 with cndtr2 := num_data }, [Event.writeCndtr .C2 num_data])
    | .C3 => ({ s2 with cndtr3 := num_data }, [Event.writeCndtr .C3 num_data])
    | .C4 => ({ s2 with cndtr4 := num_data }, [Event.writeCndtr .C4 num_data])
    | .C5 => ({ s2 with cndtr5 := num_data }, [Event.writeCndtr .C5 num_data])
    | .C6 => ({ s2 with cndtr6 := num_data }, [Event.writeCndtr .C6 num_data])
    | .C7 => ({ s2 with cndtr7 := num_data }, [Event.writeCndtr .C7 num_data])
    | .C8 => ({ s2 with cndtr8 := num_data }, [Event.writeCndtr .C8 num_data])
  let s3 := step3.fst
  let step4 : RegisterBlock × List Event :=
    match channel with
    | .C1 =>
      let r := set_ccr .C1 s3.ccr1 cfg.priority direction cfg.circular
        cfg.periph_incr cfg.mem_incr periph_size mem_size
      ({ s3 with ccr1 := r.fst }, r.snd)
    | .C2 =>
      let r := set_ccr .C2 s3.ccr2 cfg.priority direction cfg.circular
        cfg.periph_incr cfg.mem_incr periph_size mem_size
      ({ s3 with ccr2 := r.fst }, r.snd)
    | .C3 =>
      let r := set_ccr .C3 s3.ccr3 cfg.priority direction cfg.circular
        cfg.periph_incr cfg.mem_incr periph_size mem_size
      ({ s3 with ccr3 := r.fst }, r.snd)
    | .C4 =>
      let r := set_ccr .C4 s3.ccr4 cfg.priority direction cfg.circular
        cfg.periph_incr cfg.mem_incr periph_size mem_size
      ({ s3 with ccr4 := r.fst }, r.snd)
    | .C5 =>
      let r := set_ccr .C5 s3.ccr5 cfg.priority direction cfg.circular
        cfg.periph_incr cfg.mem_incr periph_size mem_size
      ({ s3 with ccr5 := r.fst }, r.snd)
    | .C6 =>
      let r := set_ccr .C6 s3.ccr6 cfg.priority direction cfg.circular
        cfg.periph_incr cfg.mem_incr periph_size mem_size
      ({ s3 with ccr6 := r.fst }, r.snd)
    | .C7 =>
      let r := set_ccr .C7 s3.ccr7 cfg.priority direction cfg.circular
        cfg.periph_incr cfg.mem_incr periph_size mem_size
      ({ s3 with ccr7 := r.fst }, r.snd)
    | .C8 =>
      let r := set_ccr .C8 s3.ccr8 cfg.priority direction cfg.circular
        cfg.periph_incr cfg.mem_incr periph_size mem_size
      ({ s3 with ccr8 := r.fst }, r.snd)
  (step4.fst,
   step1.snd ++ step2.snd ++ step3.snd ++ [Event.fenceRelease] ++ step4.snd)

/-- Dma::stop: clear EN and poll until it reads clear, then the SeqCst
fence.  The C8 arm of the source clears EN but has no poll loop; the model
reproduces that difference exactly. -/
def stop (s : RegisterBlock) (channel : DmaChannel) :
    RegisterBlock × List Event :=
  let step : RegisterBlock × List Event :=
    match channel with
    | .C1 => ({ s with ccr1 := { s.ccr1 with en := false } },
        [Event.writeCcr .C1 [CcrField.en] { s.ccr1 with en := false },
         Event.pollEnClear .C1])
    | .C2 => ({ s with ccr2 := { s.ccr2 with en := false } },
        [Event.writeCcr .C2 [CcrField.en] { s.ccr2 with en := false },
         Event.pollEnClear .C2])
    | .C3 => ({ s with ccr3 := { s.ccr3 with en := false } },
        [Event.writeCcr .C3 [CcrField.en] { s.ccr3 with en := false },
         Event.pollEnClear .C3])
    | .C4 => ({ s with ccr4 := { s.ccr4 with en := false } },
        [Event.writeCcr .C4 [CcrField.en] { s.ccr4 with en := false },
         Event.pollEnClear .C4])
    | .C5 => ({ s with ccr5 := { s.ccr5 with en := false } },
        [Event.writeCcr .C5 [CcrField.en] { s.ccr5 with en := false },
         Event.pollEnClear .C5])
    | .C6 => ({ s with ccr6 := { s.ccr6 with en := false } },
        [Event.writeCcr .C6 [CcrField.en] { s.ccr6 with en := false },
         Event.pollEnClear .C6])
    | .C7 => ({ s with ccr7 := { s.ccr7 with en := false } },
        [Event.writeCcr .C7 [CcrField.en] { s.ccr7 with en := false },
         Event.pollEnClear .C7])
    | .C8 => ({ s with ccr8 := { s.ccr8 with en := false } },
        [Event.writeCcr .C8 [CcrField.en] { s.ccr8 with en := false }])
  (step.fst, step.snd ++ [Event.fenceSeqCst])

/-- Dma::transfer_is_complete: read the channel transfer-complete flag from
the shared ISR status register; a pure read, no register is written. -/
def transfer_is_complete (s : RegisterBlock) (channel : DmaChannel) : Bool :=
  match channel with
  | .C1 => s.isr.tcif1
  | .C2 => s.isr.tcif2
  | .C3 => s.isr.tcif3
  | .C4 => s.isr.tcif4
  | .C5 => s.isr.tcif5
  | .C6 => s.isr.tcif6
  | .C7 => s.isr.tcif7
  | .C8 => s.isr.tcif8

/-- The enable_interrupt macro of the source, acting on one CCR: when EN is
set, clear it and poll until clear; set the requested interrupt-enable bit;
when EN had been set, set it again and poll until it reads set. -/
def enable_interrupt_ccr (ch : DmaChannel) (ccr : Ccr)
    (interrupt : DmaInterrupt) : Ccr × List Event :=
  let originally_enabled := ccr.en
  let step1 : Ccr × List Event :=
    if originally_enabled then
      ({ ccr with en := false },
       [Event.writeCcr ch [CcrField.en] { ccr with en := false },
        Event.pollEnClear ch])
    else (ccr, [])
  let c1 := step1.fst
  let step2 : Ccr × List Event :=
    match interrupt with
    | .TransferError =>
        ({ c1 with teie := true },
         [Event.writeCcr ch [CcrField.teie] { c1 with teie := true }])
    | .HalfTransfer =>
        ({ c1 with htie := true },
         [Event.writeCcr ch [CcrField.htie] { c1 with htie := true }])
    | .TransferComplete =>
        ({ c1 with tcie := true },
         [Event.writeCcr ch [CcrField.tcie] { c1 with tcie := true }])
  let c2 := step2.fst
  let step3 : Ccr × List Event :=
    if originally_enabled then
      ({ c2 with en := true },
       [Event.writeCcr ch [CcrField.en] { c2 with en := true },
        Event.pollEnSet ch])
    else (c2, [])
  (step3.fst, step1.snd ++ step2.snd ++ step3.snd)

/-- Dma::enable_interrupt: dispatch to the channel control register and run
the enable_interrupt sequence there. -/
def enable_interrupt (s : RegisterBlock) (channel : DmaChannel)
    (interrupt : DmaInterrupt) : RegisterBlock × List Event :=
  match channel with
  | .C1 =>
    let r := enable_interrupt_ccr .C1 s.ccr1 interrupt
    ({ s with ccr1 := r.fst }, r.snd)
  | .C2 =>
    let r := enable_interrupt_ccr .C2 s.ccr2 interrupt
    ({ s with ccr2 := r.fst }, r.snd)
  | .C3 =>
    let r := enable_interrupt_ccr .C3 s.ccr3 interrupt
    ({ s with ccr3 := r.fst }, r.snd)
  | .C4 =>
    let r := enable_interrupt_ccr .C4 s.ccr4 interrupt
    ({ s with ccr4 := r.fst }, r.snd)
  | .C5 =>
    let r := enable_interrupt_ccr .C5 s.ccr5 interrupt
    ({ s with ccr5 := r.fst }, r.snd)
  | .C6 =>
    let r := enable_interrupt_ccr .C6 s.ccr6 interrupt
    ({ s with ccr6 := r.fst }, r.snd)
  | .C7 =>
    let r := enable_interrupt_ccr .C7 s.ccr7 interrupt
    ({ s with ccr7 := r.fst }, r.snd)
  | .C8 =>
    let r := enable_interrupt_ccr .C8 s.ccr8 interrupt
    ({ s with ccr8 := r.fst }, r.snd)

/-- Dma::channel_select (l4 only): look up the select code and the hard-set
channel of the input, then write the channel field of CSELR.  The lookups
abort at runtime on unimplemented inputs, modelled as none.  The l4 build has
no C8 variant of DmaChannel, so the C8 arm is unreachable from the table. -/
def channel_select (s : RegisterBlock) (input : DmaInput) :
    Option (RegisterBlock × List Event) :=
  match dma1_channel_select input with
  | none => none
  | some val =>
    match dma1_channel input with
    | none => none
    | some ch =>
      match ch with
      | .C1 => some ({ s with cselr := { s.cselr with c1s := val } },
          [Event.writeCselr .C1 val])
      | .C2 => some ({ s with cselr := { s.cselr with c2s := val } },
          [Event.writeCselr .C2 val])
      | .C3 => some ({ s with cselr := { s.cselr with c3s := val } },
          [Event.writeCselr .C3 val])
      | .C4 => some ({ s with cselr := { s.cselr with c4s := val } },
          [Event.writeCselr .C4 val])
      | .C5 => some ({ s with cselr := { s.cselr with c5s := val } },
          [Event.writeCselr .C5 val])
      | .C6 => some ({ s with cselr := { s.cselr with c6s := val } },
          [Event.writeCselr .C6 val])
      | .C7 => some ({ s with cselr := { s.cselr with c7s := val } },
          [Event.writeCselr .C7 val])
      | .C8 => none

/-- The DMAMUX register block, one request-id field per channel; each field
holds the dmareq_id value last written. -/
structure Dmamux where
  c1cr : Nat
  c2cr : Nat
  c3cr : Nat
  c4cr : Nat
  c5cr : Nat
  c6cr : Nat
  c7cr : Nat
  c8cr : Nat
deriving DecidableEq

/-- The free function mux (l5/g0/g4/wb): write the input discriminant into
the dmareq_id field of the channel DMAMUX register; total, never aborts. -/
def mux (channel : DmaChannel) (input : DmaInput) (m : Dmamux) :
    Dmamux × List Event :=
  match channel with
  | .C1 => ({ m with c1cr := input.val }, [Event.writeMux .C1 input.val])
  | .C2 => ({ m with c2cr := input.val }, [Event.writeMux .C2 input.val])
  | .C3 => ({ m with c3cr := input.val }, [Event.writeMux .C3 input.val])
  | .C4 => ({ m with c4cr := input.val }, [Event.writeMux .C4 input.val])
  | .C5 => ({ m with c5cr := input.val }, [Event.writeMux .C5 input.val])
  | .C6 => ({ m with c6cr := input.val }, [Event.writeMux .C6 input.val])
  | .C7 => ({ m with c7cr := input.val }, [Event.writeMux .C7 input.val])
  | .C8 => ({ m with c8cr := input.val }, [Event.writeMux .C8 input.val])

/-- The control register of a channel within the register block; the
register-topology resolver of the design. -/
def ccrOf : RegisterBlock → DmaChannel → Ccr
  | s, .C1 => s.ccr1
  | s, .C2 => s.ccr2
  | s, .C3 => s.ccr3
  | s, .C4 => s.ccr4
  | s, .C5 => s.ccr5
  | s, .C6 => s.ccr6
  | s, .C7 => s.ccr7
  | s, .C8 => s.ccr8

/-- Does this event write a register (as opposed to a poll or a fence)? -/
def Event.isRegWrite : Event → Bool
  | .writeCpar _ _ => true
  | .writeCmar _ _ => true
  | .writeCndtr _ _ => true
  | .writeCcr _ _ _ => true
  | .writeCselr _ _ => true
  | .writeMux _ _ => true
  | _ => false

/-- Number of register writes in a trace. -/
def countRegWrites (t : List Event) : Nat :=
  (t.filter Event.isRegWrite).length

/-- Is this event a poll observation of the EN bit reading clear? -/
def Event.isPollEnClear : Event → Bool
  | .pollEnClear _ => true
  | _ => false

/-- Is this CCR field one of the reconfiguration fields the disable-before-
reconfigure invariant protects: priority, circular, increment, size? -/
def CcrField.isCfgField : CcrField → Bool
  | .pl => true
  | .circ => true
  | .pinc => true
  | .minc => true
  | .psize => true
  | .msize => true
  | _ => false

/-- Is this CCR field an interrupt-enable field? -/
def CcrField.isIeField : CcrField → Bool
  | .teie => true
  | .htie => true
  | .tcie => true
  | _ => false

/-- Does this event write any of the protected reconfiguration fields? -/
def Event.isCfgFieldWrite : Event → Bool
  | .writeCcr _ fs _ => fs.any CcrField.isCfgField
  | _ => false

/-- Does this event write the EN field with value one? -/
def Event.isEnableSetWrite : Event → Bool
  | .writeCcr _ fs v => fs.contains CcrField.en && v.en
  | _ => false

/-- Does this event write the MEM2MEM field with value zero? -/
def Event.isM2MClearWrite : Event → Bool
  | .writeCcr _ fs v => fs.contains CcrField.mem2mem && !v.mem2mem
  | _ => false

/-- Before any write touching a protected reconfiguration field, the trace
contains an EN-clearing control write immediately followed by a poll
observing EN clear, on the same channel. -/
def disablePollBeforeCfg : List Event → Bool
  | [] => true
  | e :: rest =>
    if e.isCfgFieldWrite then false
    else
      match e, rest with
      | Event.writeCcr c fs v, Event.pollEnClear c2 :: _ =>
        if fs == [CcrField.en] && !v.en && c == c2 then true
        else disablePollBeforeCfg rest
      | _, _ => disablePollBeforeCfg rest

/-- A MEM2MEM-clearing write occurs strictly before the first EN-setting
write of the trace, and an EN-setting write does occur. -/
def m2mClearBeforeEnable : List Event → Bool
  | [] => false
  | e :: rest =>
    if e.isEnableSetWrite then false
    else if e.isM2MClearWrite then rest.any Event.isEnableSetWrite
    else m2mClearBeforeEnable rest

/-- Every EN-setting write carries a control word whose MEM2MEM bit is
clear. -/
def enableWritesClearM2M (t : List Event) : Bool :=
  t.all fun e =>
    match e with
    | Event.writeCcr _ fs v => !(fs.contains CcrField.en && v.en) || !v.mem2mem
    | _ => true

/-- The trace starts with a peripheral-address write, then a memory-address
write, then a count write, all on one channel, and no later event writes any
of those three registers. -/
def addrCountThenCcr : List Event → Bool
  | Event.writeCpar a _ :: Event.writeCmar b _ :: Event.writeCndtr c _ :: rest =>
    a == b && b == c &&
      rest.all fun e =>
        match e with
        | Event.writeCpar _ _ => false
        | Event.writeCmar _ _ => false
        | Event.writeCndtr _ _ => false
        | _ => true
  | _ => false

/-- The trace is exactly one disable, poll-clear, interrupt-enable-bit
modify, re-enable, poll-set cycle on a single channel. -/
def oneDisableModifyReenable : List Event → Bool
  | [Event.writeCcr a fs1 v1, Event.pollEnClear b,
     Event.writeCcr c fs2 _, Event.writeCcr d fs3 v3, Event.pollEnSet e] =>
    fs1 == [CcrField.en] && !v1.en && fs2.all CcrField.isIeField &&
      fs3 == [CcrField.en] && v3.en && a == b && b == c && c == d && d == e
  | _ => false

/-- Every event of the trace is a control-register access (a CCR write or an
EN poll) or a fence: no address, count, status, clear-flag, select or mux
register is written. -/
def writesOnlyCcr (t : List Event) : Bool :=
  t.all fun e =>
    match e with
    | Event.writeCcr _ _ _ => true
    | Event.pollEnClear _ => true
    | Event.pollEnSet _ => true
    | Event.fenceRelease => true
    | Event.fenceSeqCst => true
    | _ => false

/-- The last register write of the trace sets the EN bit and no earlier
register write sets it. -/
def enableSetLast (t : List Event) : Bool :=
  match (t.filter Event.isRegWrite).reverse with
  | e :: rest => e.isEnableSetWrite && rest.all fun x => !x.isEnableSetWrite
  | [] => false

/-- A control register with every bit and field zero. -/
def ccr0 : Ccr :=
  { en := false, tcie := false, htie := false, teie := false, dir := false
    circ := false, pinc := false, minc := false, psize := 0, msize := 0
    pl := 0, mem2mem := false }

/-- A register block with every register zeroed: the reset state of the
register double. -/
def s0 : RegisterBlock :=
  { cpar1 := 0, cpar2 := 0, cpar3 := 0, cpar4 := 0
    cpar5 := 0, cpar6 := 0, cpar7 := 0, cpar8 := 0
    cmar1 := 0, cmar2 := 0, cmar3 := 0, cmar4 := 0
    cmar5 := 0, cmar6 := 0, cmar7 := 0, cmar8 := 0
    cndtr1 := 0, cndtr2 := 0, cndtr3 := 0, cndtr4 := 0
    cndtr5 := 0, cndtr6 := 0, cndtr7 := 0, cndtr8 := 0
    ccr1 := ccr0, ccr2 := ccr0, ccr3 := ccr0, ccr4 := ccr0
    ccr5 := ccr0, ccr6 := ccr0, ccr7 := ccr0, ccr8 := ccr0
    isr := { tcif1 := false, tcif2 := false, tcif3 := false, tcif4 := false
             tcif5 := false, tcif6 := false, tcif7 := false, tcif8 := false }
    cselr := { c1s := 0, c2s := 0, c3s := 0, c4s := 0, c5s := 0, c6s := 0
               c7s := 0 } }

/-- The reset register block with channel 3 armed (EN set). -/
def sEn3 : RegisterBlock := { s0 with ccr3 := { ccr0 with en := true } }

/-- The write trace of the specification scenario: channel 3, peripheral
address 0x40010000, memory address 0x20000000, 16 elements, peripheral to
memory, 16-bit sizes, default configuration (medium priority, memory
increment on, peripheral increment off, circular off). -/
def scenarioTrace : List Event :=
  (cfg_channel s0 DmaChannel.C3 0x40010000 0x20000000 16
    Direction.ReadFromPeriph DataSize.S16 DataSize.S16 ChannelCfg.default).snd

/-- The combined control word the scenario writes last. -/
def scenarioWord : Ccr :=
  { en := true, tcie := true, htie := false, teie := false, dir := false
    circ := false, pinc := false, minc := true, psize := 1, msize := 1
    pl := 1, mem2mem := false }

/-- If a control register has EN set before the enable_interrupt sequence
runs, the sequence is exactly one disable, poll-clear, modify, re-enable,
poll-set cycle and leaves EN set. -/
theorem enable_interrupt_ccr_armed (ch : DmaChannel) (c : Ccr)
    (it : DmaInterrupt) (h : c.en = true) :
    oneDisableModifyReenable (enable_interrupt_ccr ch c it).snd = true ∧
    (enable_interrupt_ccr ch c it).fst.en = true := by
  obtain ⟨en0, a1, a2, a3, a4, a5, a6, a7, a8, a9, a10, a11⟩ := c
  change en0 = true at h
  subst h
  cases ch <;> cases it <;> exact ⟨rfl, rfl⟩

/-- Claim C1, counterexample: in the specification scenario (channel 3,
peripheral address 0x40010000, a 16-element buffer, peripheral-to-memory,
16-bit sizes, medium priority, memory increment on, peripheral increment
off), cfg_channel does not issue exactly 4 register writes. -/
theorem cfg_scenario_not_four_writes :
    ¬ countRegWrites scenarioTrace = 4 := by decide

/-- Claim C1, amended: the scenario issues exactly 5 register writes -
peripheral address, memory address, count 16, an EN-clearing control write,
then one combined control word - and that word has direction bit 0, size
fields 0b01 and 0b01, priority 0b01, with the enable bit set last. -/
theorem cfg_scenario_five_writes :
    countRegWrites scenarioTrace = 5 ∧
    scenarioTrace =
      [Event.writeCpar DmaChannel.C3 0x40010000,
       Event.writeCmar DmaChannel.C3 0x20000000,
       Event.writeCndtr DmaChannel.C3 16,
       Event.fenceRelease,
       Event.writeCcr DmaChannel.C3 [CcrField.en] ccr0,
       Event.pollEnClear DmaChannel.C3,
       Event.writeCcr DmaChannel.C3
         [CcrField.pl, CcrField.dir, CcrField.circ, CcrField.pinc,
          CcrField.minc, CcrField.psize, CcrField.msize, CcrField.tcie,
          CcrField.en] scenarioWord] ∧
    scenarioWord.dir = false ∧ scenarioWord.psize = 1 ∧
    scenarioWord.msize = 1 ∧ scenarioWord.pl = 1 ∧ scenarioWord.en = true ∧
    enableSetLast scenarioTrace = true := by decide

/-- Claim C2: stop clears EN and polls until it reads clear on channels 1
through 7, but its channel-8 arm clears EN and returns without any poll of
the control register: the mandated wait is missing there. -/
theorem stop_c8_missing_poll (s : RegisterBlock) :
    (stop s DmaChannel.C8).snd =
      [Event.writeCcr DmaChannel.C8 [CcrField.en] { s.ccr8 with en := false },
       Event.fenceSeqCst] ∧
    (stop s DmaChannel.C8).snd.any Event.isPollEnClear = false ∧
    (stop s DmaChannel.C1).snd.any Event.isPollEnClear = true :=
  ⟨rfl, rfl, rfl⟩

/-- Claim C3: for every channel and configuration, if the channel's EN bit
is set when the control-register phase begins, an EN-clearing write followed
immediately by a poll observing EN clear occurs strictly before any write to
the priority, circular, increment-mode or element-size fields. -/
theorem cfg_channel_disable_poll_before_cfg_fields
    (s : RegisterBlock) (ch : DmaChannel) (pa ma nd : Nat) (d : Direction)
    (ps ms : DataSize) (cfg : ChannelCfg)
    (h : (ccrOf s ch).en = true) :
    disablePollBeforeCfg (cfg_channel s ch pa ma nd d ps ms cfg).snd = true := by
  obtain ⟨pr, ci, pi, mi⟩ := cfg
  cases ch <;> cases ci <;> rfl

/-- Claim C3, witness at a concrete armed state and input. -/
theorem cfg_channel_disable_poll_witness :
    (ccrOf sEn3 DmaChannel.C3).en = true ∧
    disablePollBeforeCfg
      (cfg_channel sEn3 DmaChannel.C3 1 2 3 Direction.ReadFromPeriph
        DataSize.S16 DataSize.S16 ChannelCfg.default).snd = true :=
  ⟨by decide,
   cfg_channel_disable_poll_before_cfg_fields sEn3 DmaChannel.C3 1 2 3
     Direction.ReadFromPeriph DataSize.S16 DataSize.S16 ChannelCfg.default
     (by decide)⟩

/-- Claim C4: whenever circular mode is Enabled, a MEM2MEM-clearing write
occurs before the EN-setting write, and every EN-setting write carries a
control word whose MEM2MEM bit is clear. -/
theorem cfg_channel_circular_clears_m2m
    (s : RegisterBlock) (ch : DmaChannel) (pa ma nd : Nat) (d : Direction)
    (ps ms : DataSize) (cfg : ChannelCfg)
    (h : cfg.circular = Circular.Enabled) :
    m2mClearBeforeEnable (cfg_channel s ch pa ma nd d ps ms cfg).snd = true ∧
    enableWritesClearM2M (cfg_channel s ch pa ma nd d ps ms cfg).snd = true := by
  obtain ⟨pr, ci, pi, mi⟩ := cfg
  cases ci
  · exact Circular.noConfusion h
  · cases ch <;> exact ⟨rfl, rfl⟩

/-- Claim C4, witness at a concrete circular configuration. -/
theorem cfg_channel_circular_witness :
    (ChannelCfg.mk Priority.Medium Circular.Enabled IncrMode.Disabled
      IncrMode.Enabled).circular = Circular.Enabled ∧
    (m2mClearBeforeEnable
      (cfg_channel s0 DmaChannel.C2 4 5 6 Direction.ReadFromMem DataSize.S8
        DataSize.S32
        (ChannelCfg.mk Priority.Medium Circular.Enabled IncrMode.Disabled
          IncrMode.Enabled)).snd = true ∧
     enableWritesClearM2M
      (cfg_channel s0 DmaChannel.C2 4 5 6 Direction.ReadFromMem DataSize.S8
        DataSize.S32
        (ChannelCfg.mk Priority.Medium Circular.Enabled IncrMode.Disabled
          IncrMode.Enabled)).snd = true) :=
  ⟨by decide,
   cfg_channel_circular_clears_m2m s0 DmaChannel.C2 4 5 6
     Direction.ReadFromMem DataSize.S8 DataSize.S32
     (ChannelCfg.mk Priority.Medium Circular.Enabled IncrMode.Disabled
       IncrMode.Enabled) (by decide)⟩

/-- Claim C5: enable_interrupt on an armed channel performs exactly one
disable, poll-clear, interrupt-bit modify, re-enable, poll-set cycle, and on
return the channel's EN bit again holds its original set value. -/
theorem enable_interrupt_armed_cycle
    (s : RegisterBlock) (ch : DmaChannel) (it : DmaInterrupt)
    (h : (ccrOf s ch).en = true) :
    oneDisableModifyReenable (enable_interrupt s ch it).snd = true ∧
    (ccrOf (enable_interrupt s ch it).fst ch).en = true := by
  cases ch <;>
    exact ⟨(enable_interrupt_ccr_armed _ _ it h).1,
           (enable_interrupt_ccr_armed _ _ it h).2⟩

/-- Claim C5, witness at a concrete armed state. -/
theorem enable_interrupt_armed_witness :
    (ccrOf sEn3 DmaChannel.C3).en = true ∧
    (oneDisableModifyReenable
      (enable_interrupt sEn3 DmaChannel.C3 DmaInterrupt.HalfTransfer).snd
        = true ∧
     (ccrOf (enable_interrupt sEn3 DmaChannel.C3
        DmaInterrupt.HalfTransfer).fst DmaChannel.C3).en = true) :=
  ⟨by decide,
   enable_interrupt_armed_cycle sEn3 DmaChannel.C3 DmaInterrupt.HalfTransfer
     (by decide)⟩

/-- Claim C6: stop followed by transfer_is_complete returns the pre-stop
transfer-complete flag: stop leaves the shared status register untouched and
writes only the channel control register, and transfer_is_complete is a pure
read of the status register. -/
theorem stop_preserves_transfer_complete
    (s : RegisterBlock) (ch : DmaChannel) :
    transfer_is_complete (stop s ch).fst ch = transfer_is_complete s ch ∧
    (stop s ch).fst.isr = s.isr ∧
    writesOnlyCcr (stop s ch).snd = true := by
  cases ch <;> exact ⟨rfl, rfl, rfl⟩

/-- Claim C7: stop is idempotent on the register file: stopping a channel
twice in a row leaves the register file exactly as stopping it once. -/
theorem stop_idempotent (s : RegisterBlock) (ch : DmaChannel) :
    (stop (stop s ch).fst ch).fst = (stop s ch).fst := by
  cases ch <;> rfl

/-- Claim C8: for every channel and input, cfg_channel writes the peripheral
address register first, then the memory address register, then the element
count register, and no later event writes any of those three registers; all
control-register writes come after. -/
theorem cfg_channel_write_order
    (s : RegisterBlock) (ch : DmaChannel) (pa ma nd : Nat) (d : Direction)
    (ps ms : DataSize) (cfg : ChannelCfg) :
    addrCountThenCcr (cfg_channel s ch pa ma nd d ps ms cfg).snd = true := by
  obtain ⟨pr, ci, pi, mi⟩ := cfg
  cases ch <;> cases ci <;> rfl

/-- Claim C9, counterexample: channel_select aborts at runtime (the source
hits a runtime panic) on the input Dac1Ch1, whose lookup-table entries are
unimplemented; so input selection does not complete for every DmaInput. -/
theorem channel_select_dac1ch1_aborts :
    channel_select s0 DmaInput.Dac1Ch1 = none := rfl

/-- Claim C9, amended: mux completes with exactly one register write for
every channel and input, and channel_select completes with exactly one
register write for every DmaInput whose lookup-table entry is implemented;
the unimplemented inputs abort at runtime. -/
theorem select_and_mux_writes :
    (∀ (m : Dmamux) (ch : DmaChannel) (i : DmaInput),
      countRegWrites (mux ch i m).snd = 1) ∧
    (∀ (s : RegisterBlock) (i : DmaInput),
      (dma1_channel_select i).isSome = true →
        ∃ r, channel_select s i = some r ∧ countRegWrites r.snd = 1) := by
  constructor
  · intro m ch i
    cases ch <;> rfl
  · intro s i h
    cases i <;>
      first
        | exact ⟨_, rfl, rfl⟩
        | exact Bool.noConfusion h

/-- Claim C9, witness at a concrete implemented input. -/
theorem select_and_mux_witness :
    (dma1_channel_select DmaInput.Adc1).isSome = true ∧
    ∃ r, channel_select s0 DmaInput.Adc1 = some r ∧
      countRegWrites r.snd = 1 :=
  ⟨by decide, select_and_mux_writes.2 s0 DmaInput.Adc1 (by decide)⟩

/-- Claim C10: the default channel configuration is medium priority,
circular disabled, peripheral increment disabled, memory increment enabled,
and a cfg_channel call with the default configuration encodes exactly these
values into the channel control register. -/
theorem default_cfg_fields_and_encoding :
    ChannelCfg.default =
      ChannelCfg.mk Priority.Medium Circular.Disabled IncrMode.Disabled
        IncrMode.Enabled ∧
    ∀ (s : RegisterBlock) (ch : DmaChannel) (pa ma nd : Nat) (d : Direction)
      (ps ms : DataSize),
      (ccrOf (cfg_channel s ch pa ma nd d ps ms ChannelCfg.default).fst
        ch).pl = 1 ∧
      (ccrOf (cfg_channel s ch pa ma nd d ps ms ChannelCfg.default).fst
        ch).circ = false ∧
      (ccrOf (cfg_channel s ch pa ma nd d ps ms ChannelCfg.default).fst
        ch).pinc = false ∧
      (ccrOf (cfg_channel s ch pa ma nd d ps ms ChannelCfg.default).fst
        ch).minc = true := by
  constructor
  · rfl
  · intro s ch pa ma nd d ps ms
    cases ch <;> exact ⟨rfl, rfl, rfl, rfl⟩
